import Mathlib

/-!
Verification of the STT API settings synchronization controller
(`useSttApiState.ts` and the `handleToggleEnabled` handler of
`SttApiSettings.tsx`).

The controller owns an ephemeral local mirror (selected provider id,
base URL, API key, model, three busy flags) and mediates every mutation
through an asynchronous remote call; on success it commits the confirmed
value into the settings store.  We shallowly embed the data model and the
five handlers.  Each asynchronous handler is split at its single
suspension point (the `await` on the remote call): a `_mid` function
gives the state observable while the call is in flight, and a total
function gives the final state for either outcome of the remote call,
together with the list of remote calls the run issued.
-/

namespace SttApi

/-- Provider descriptor, from the `SttApiProvider` struct. -/
structure SttApiProvider where
  id : String
  label : String
  base_url : String
  allow_base_url_edit : Bool
deriving Repr, DecidableEq

/-- Settings snapshot held under the `stt_api` key, from `SttApiSettings`.
The two JS objects `api_keys` and `models` are embedded as association
lists (key order is observable in JS but irrelevant to lookup). -/
structure SttApiSettingsT where
  enabled : Bool
  provider_id : String
  providers : List SttApiProvider
  api_keys : List (String × String)
  models : List (String × String)
deriving Repr, DecidableEq

/-- JS member access with `?? dflt` fallback: `obj[k] ?? dflt`. -/
def jsGet (m : List (String × String)) (k dflt : String) : String :=
  match m.find? (fun kv => kv.1 == k) with
  | some kv => kv.2
  | none => dflt

/-- JS spread update `\x7b...m, [k]: v\x7d`: replaces the value at an existing
key in place, otherwise appends the new binding. -/
def jsSet (m : List (String × String)) (k v : String) : List (String × String) :=
  if m.any (fun kv => kv.1 == k) then
    m.map (fun kv => if kv.1 == k then (kv.1, v) else kv)
  else
    m ++ [(k, v)]

/-- The controller's ephemeral local mirror: the seven `useState` cells of
`useSttApiState`. -/
structure MirrorState where
  selectedProviderId : String
  baseUrl : String
  apiKey : String
  model : String
  isBaseUrlUpdating : Bool
  isApiKeyUpdating : Bool
  isModelUpdating : Bool
deriving Repr, DecidableEq

/-- Combined observable state: the local mirror plus the store's
`stt_api` snapshot (`getSetting("stt_api")`, possibly absent). -/
structure ControllerState where
  mirror : MirrorState
  store : Option SttApiSettingsT
deriving Repr, DecidableEq

/-- Remote procedure invocations issued by a handler run. -/
inductive RemoteCall where
  | setProvider (providerId : String)
  | setBaseUrl (providerId url : String)
  | setApiKey (providerId key : String)
  | setModel (providerId model : String)
  | setEnabled (enabled : Bool)
deriving Repr, DecidableEq

/-- Outcome of one awaited remote call: resolves, or rejects (is caught and
logged by the handler). -/
inductive RemoteOutcome where
  | ok
  | err
deriving Repr, DecidableEq

/-- Derived value `providers = sttApiSettings?.providers ?? []`. -/
def providersOf (st : ControllerState) : List SttApiProvider :=
  match st.store with
  | some s => s.providers
  | none => []

/-- Derived value `selectedProvider = providers.find(p => p.id === selectedProviderId)`. -/
def selectedProvider (st : ControllerState) : Option SttApiProvider :=
  (providersOf st).find? (fun p => p.id == st.mirror.selectedProviderId)

/-- Derived value `isCustomProvider = selectedProvider?.id === "custom"`
(`undefined === "custom"` is false). -/
def isCustomProvider (st : ControllerState) : Bool :=
  match selectedProvider st with
  | some p => p.id == "custom"
  | none => false

/-- `handleProviderSelect(providerId)`: no-op when the id is empty or no
snapshot is loaded; otherwise awaits `setSttApiProvider`; on resolution
commits the new `provider_id`, sets the local selection, and re-derives
base URL / API key / model from the old snapshot when a matching
descriptor exists.  A rejection is caught and logged; nothing after the
`await` runs. -/
def handleProviderSelect (st : ControllerState) (providerId : String)
    (o : RemoteOutcome) : ControllerState × List RemoteCall :=
  match st.store with
  | none => (st, [])
  | some s =>
    if providerId = "" then (st, [])
    else
      match o with
      | RemoteOutcome.err => (st, [RemoteCall.setProvider providerId])
      | RemoteOutcome.ok =>
        let store' := some { s with provider_id := providerId }
        let mirror' := { st.mirror with selectedProviderId := providerId }
        let mirror'' :=
          match s.providers.find? (fun p => p.id == providerId) with
          | some p =>
            { mirror' with
              baseUrl := p.base_url
              apiKey := jsGet s.api_keys providerId ""
              model := jsGet s.models providerId "whisper-1" }
          | none => mirror'
        ({ mirror := mirror'', store := store' }, [RemoteCall.setProvider providerId])

/-- State of `handleBaseUrlChange(newBaseUrl)` at its suspension point:
`none` when the guard `!isCustomProvider || !selectedProviderId` returns
early, otherwise the state after `setIsBaseUrlUpdating(true)` and the
optimistic `setBaseUrl(newBaseUrl)`, while the remote call is in flight. -/
def handleBaseUrlChange_mid (st : ControllerState) (newBaseUrl : String) :
    Option ControllerState :=
  if !isCustomProvider st || st.mirror.selectedProviderId == "" then none
  else
    some { st with
            mirror := { st.mirror with
                          isBaseUrlUpdating := true
                          baseUrl := newBaseUrl } }

/-- Full run of `handleBaseUrlChange(newBaseUrl)` for a given remote
outcome.  On resolution, when a snapshot is loaded, the provider list is
patched element-wise at the selected id; on rejection only the log runs;
`finally` clears the busy flag on both paths. -/
def handleBaseUrlChange (st : ControllerState) (newBaseUrl : String)
    (o : RemoteOutcome) : ControllerState × List RemoteCall :=
  match handleBaseUrlChange_mid st newBaseUrl with
  | none => (st, [])
  | some stMid =>
    let call := RemoteCall.setBaseUrl st.mirror.selectedProviderId newBaseUrl
    match o with
    | RemoteOutcome.err =>
      ({ stMid with mirror := { stMid.mirror with isBaseUrlUpdating := false } }, [call])
    | RemoteOutcome.ok =>
      let store' :=
        match st.store with
        | some s =>
          some { s with
                  providers := s.providers.map (fun p =>
                    if p.id == st.mirror.selectedProviderId then
                      { p with base_url := newBaseUrl }
                    else p) }
        | none => none
      ({ mirror := { stMid.mirror with isBaseUrlUpdating := false }
         store := store' }, [call])

/-- State of `handleApiKeyChange(newApiKey)` at its suspension point:
`none` when `!selectedProviderId` returns early, otherwise the state with
the busy flag set and the optimistic key applied. -/
def handleApiKeyChange_mid (st : ControllerState) (newApiKey : String) :
    Option ControllerState :=
  if st.mirror.selectedProviderId == "" then none
  else
    some { st with
            mirror := { st.mirror with
                          isApiKeyUpdating := true
                          apiKey := newApiKey } }

/-- Full run of `handleApiKeyChange(newApiKey)`.  On resolution, when a
snapshot is loaded, the `api_keys` map entry for the selected provider is
replaced; the busy flag is cleared on both paths. -/
def handleApiKeyChange (st : ControllerState) (newApiKey : String)
    (o : RemoteOutcome) : ControllerState × List RemoteCall :=
  match handleApiKeyChange_mid st newApiKey with
  | none => (st, [])
  | some stMid =>
    let call := RemoteCall.setApiKey st.mirror.selectedProviderId newApiKey
    match o with
    | RemoteOutcome.err =>
      ({ stMid with mirror := { stMid.mirror with isApiKeyUpdating := false } }, [call])
    | RemoteOutcome.ok =>
      let store' :=
        match st.store with
        | some s =>
          some { s with
                  api_keys := jsSet s.api_keys st.mirror.selectedProviderId newApiKey }
        | none => none
      ({ mirror := { stMid.mirror with isApiKeyUpdating := false }
         store := store' }, [call])

/-- State of `handleModelChange(newModel)` at its suspension point:
`none` when `!selectedProviderId` returns early, otherwise the state with
the busy flag set and the optimistic model applied. -/
def handleModelChange_mid (st : ControllerState) (newModel : String) :
    Option ControllerState :=
  if st.mirror.selectedProviderId == "" then none
  else
    some { st with
            mirror := { st.mirror with
                          isModelUpdating := true
                          model := newModel } }

/-- Full run of `handleModelChange(newModel)`.  On resolution, when a
snapshot is loaded, the `models` map entry for the selected provider is
replaced; the busy flag is cleared on both paths. -/
def handleModelChange (st : ControllerState) (newModel : String)
    (o : RemoteOutcome) : ControllerState × List RemoteCall :=
  match handleModelChange_mid st newModel with
  | none => (st, [])
  | some stMid =>
    let call := RemoteCall.setModel st.mirror.selectedProviderId newModel
    match o with
    | RemoteOutcome.err =>
      ({ stMid with mirror := { stMid.mirror with isModelUpdating := false } }, [call])
    | RemoteOutcome.ok =>
      let store' :=
        match st.store with
        | some s =>
          some { s with
                  models := jsSet s.models st.mirror.selectedProviderId newModel }
        | none => none
      ({ mirror := { stMid.mirror with isModelUpdating := false }
         store := store' }, [call])

/-- Result of the JS spread `\x7b...sttApiSettings, enabled\x7d` in
`handleToggleEnabled`: when the snapshot is absent the spread of
`undefined` yields an object holding only `enabled`, so the committed
value is a partial snapshot with every field optional. -/
structure PartialSttApiSettings where
  enabled : Option Bool
  provider_id : Option String
  providers : Option (List SttApiProvider)
  api_keys : Option (List (String × String))
  models : Option (List (String × String))
deriving Repr, DecidableEq

/-- View of a full snapshot as a partial one (every field present). -/
def toPartial (s : SttApiSettingsT) : PartialSttApiSettings :=
  { enabled := some s.enabled
    provider_id := some s.provider_id
    providers := some s.providers
    api_keys := some s.api_keys
    models := some s.models }

/-- `handleToggleEnabled(enabled)` from `SttApiSettings.tsx`: awaits
`setSttApiEnabled(enabled)` with no loaded-snapshot guard; on resolution
commits `\x7b...sttApiSettings, enabled\x7d` to the store.  The first
component is the committed value when `updateSetting` is reached
(`none` when the remote call rejects), the second the remote calls
issued. -/
def handleToggleEnabled (sttApiSettings : Option SttApiSettingsT)
    (enabled : Bool) (o : RemoteOutcome) :
    Option PartialSttApiSettings × List RemoteCall :=
  match o with
  | RemoteOutcome.err => (none, [RemoteCall.setEnabled enabled])
  | RemoteOutcome.ok =>
    let committed : PartialSttApiSettings :=
      match sttApiSettings with
      | none =>
        { enabled := some enabled
          provider_id := none
          providers := none
          api_keys := none
          models := none }
      | some s => { toPartial s with enabled := some enabled }
    (some committed, [RemoteCall.setEnabled enabled])

/-! Concrete fixtures: the default catalog from the backend (`settings.rs`
defaults: OpenAI and Custom), plus variant catalogs used to separate the
`allow_base_url_edit` flag from the `"custom"` id sentinel. -/

/-- Default OpenAI descriptor. -/
def openaiP : SttApiProvider :=
  { id := "openai", label := "OpenAI",
    base_url := "https://api.openai.com/v1", allow_base_url_edit := false }

/-- Default Custom descriptor. -/
def customP : SttApiProvider :=
  { id := "custom", label := "Custom",
    base_url := "http://localhost:8000/v1", allow_base_url_edit := true }

/-- Default snapshot with OpenAI active and empty key/model maps. -/
def snap0 : SttApiSettingsT :=
  { enabled := false, provider_id := "openai",
    providers := [openaiP, customP], api_keys := [], models := [] }

/-- Controller state with `snap0` loaded and OpenAI selected, mirror
fields as `initialize` derives them. -/
def st0 : ControllerState :=
  { mirror := { selectedProviderId := "openai",
                baseUrl := "https://api.openai.com/v1", apiKey := "",
                model := "whisper-1", isBaseUrlUpdating := false,
                isApiKeyUpdating := false, isModelUpdating := false }
    store := some snap0 }

/-- Snapshot like `snap0` but with the Custom provider active. -/
def snapC : SttApiSettingsT :=
  { enabled := false, provider_id := "custom",
    providers := [openaiP, customP], api_keys := [], models := [] }

/-- Controller state with `snapC` loaded and Custom selected. -/
def stC : ControllerState :=
  { mirror := { selectedProviderId := "custom",
                baseUrl := "http://localhost:8000/v1", apiKey := "",
                model := "whisper-1", isBaseUrlUpdating := false,
                isApiKeyUpdating := false, isModelUpdating := false }
    store := some snapC }

/-- A descriptor whose id is not the `"custom"` sentinel but whose
`allow_base_url_edit` flag is true. -/
def editableP : SttApiProvider :=
  { id := "p1", label := "Editable",
    base_url := "https://example.test/v1", allow_base_url_edit := true }

/-- A descriptor with the `"custom"` id but `allow_base_url_edit` false. -/
def lockedCustomP : SttApiProvider :=
  { id := "custom", label := "Custom",
    base_url := "http://localhost:8000/v1", allow_base_url_edit := false }

/-- Catalog separating the editability flag from the id sentinel. -/
def snapFlag : SttApiSettingsT :=
  { enabled := true, provider_id := "p1",
    providers := [editableP, lockedCustomP], api_keys := [], models := [] }

/-- State with `snapFlag` loaded and the flag-editable provider selected. -/
def stFlagEditable : ControllerState :=
  { mirror := { selectedProviderId := "p1",
                baseUrl := "https://example.test/v1", apiKey := "",
                model := "whisper-1", isBaseUrlUpdating := false,
                isApiKeyUpdating := false, isModelUpdating := false }
    store := some snapFlag }

/-- State with `snapFlag` loaded and the flag-locked custom provider
selected. -/
def stFlagLocked : ControllerState :=
  { mirror := { selectedProviderId := "custom",
                baseUrl := "http://localhost:8000/v1", apiKey := "",
                model := "whisper-1", isBaseUrlUpdating := false,
                isApiKeyUpdating := false, isModelUpdating := false }
    store := some snapFlag }

/-- A selected provider whose id tests equal to `"custom"` forces the
mirror's selected id itself to be `"custom"` (by the `find?` predicate). -/
theorem selected_eq_custom (st : ControllerState) (h : isCustomProvider st = true) :
    st.mirror.selectedProviderId = "custom" := by
  unfold isCustomProvider selectedProvider at h
  cases hf : (providersOf st).find? (fun p => p.id == st.mirror.selectedProviderId) with
  | none => rw [hf] at h; simp at h
  | some p =>
    rw [hf] at h
    have h1 : p.id = "custom" := by simpa using h
    have h2 := List.find?_some hf
    have h3 : p.id = st.mirror.selectedProviderId := by simpa using h2
    rw [← h3, h1]

/-- C1: the claim that `setBaseUrl` is guarded exactly by the active
provider's `allow_base_url_edit` flag is false.  With the flag-editable
provider `p1` selected (flag true, provider selected) the handler is a
no-op issuing no remote call, and with the flag-locked `"custom"`
provider selected (flag false) the handler does issue the remote call. -/
theorem C1_counterexample :
    ((selectedProvider stFlagEditable).map SttApiProvider.allow_base_url_edit = some true ∧
     stFlagEditable.mirror.selectedProviderId ≠ "" ∧
     handleBaseUrlChange stFlagEditable "http://other.test/v1" RemoteOutcome.ok
       = (stFlagEditable, [])) ∧
    ((selectedProvider stFlagLocked).map SttApiProvider.allow_base_url_edit = some false ∧
     (handleBaseUrlChange stFlagLocked "http://other.test/v1" RemoteOutcome.ok).2
       = [RemoteCall.setBaseUrl "custom" "http://other.test/v1"]) := by
  decide

/-- C1 (amended): the guard of `setBaseUrl` is exactly that the selected
provider's id is the `"custom"` sentinel: when `isCustomProvider` is
false the handler is a no-op with no state change and no remote call, and
when it is true the handler issues the `setBaseUrl` remote call,
regardless of `allow_base_url_edit`. -/
theorem C1_theorem (st : ControllerState) (v : String) (o : RemoteOutcome) :
    (isCustomProvider st = false → handleBaseUrlChange st v o = (st, [])) ∧
    (isCustomProvider st = true →
      (handleBaseUrlChange st v o).2
        = [RemoteCall.setBaseUrl st.mirror.selectedProviderId v]) := by
  constructor
  · intro h
    unfold handleBaseUrlChange handleBaseUrlChange_mid
    simp [h]
  · intro h
    have hid := selected_eq_custom st h
    unfold handleBaseUrlChange handleBaseUrlChange_mid
    simp [h, hid]
    cases o <;> simp

/-- C1 witness: both directions of the amended guard at concrete states. -/
theorem C1_witness :
    handleBaseUrlChange stFlagEditable "http://w.test/v1" RemoteOutcome.ok
      = (stFlagEditable, []) ∧
    (handleBaseUrlChange stFlagLocked "http://w.test/v1" RemoteOutcome.ok).2
      = [RemoteCall.setBaseUrl stFlagLocked.mirror.selectedProviderId "http://w.test/v1"] :=
  ⟨(C1_theorem stFlagEditable "http://w.test/v1" RemoteOutcome.ok).1 (by decide),
   (C1_theorem stFlagLocked "http://w.test/v1" RemoteOutcome.ok).2 (by decide)⟩

/-- C2: the claim that `selectProvider` preserves the membership
invariant is false.  From the default state, selecting the absent id
`"bogus"` with a succeeding remote call commits `provider_id = "bogus"`
into the snapshot and sets the local selection, although no descriptor in
the providers list has that id. -/
theorem C2_counterexample :
    (handleProviderSelect st0 "bogus" RemoteOutcome.ok).1.store.map
        SttApiSettingsT.provider_id = some "bogus" ∧
    (handleProviderSelect st0 "bogus" RemoteOutcome.ok).1.mirror.selectedProviderId
      = "bogus" ∧
    (providersOf (handleProviderSelect st0 "bogus" RemoteOutcome.ok).1).all
      (fun p => p.id != "bogus") = true ∧
    st0.store.map SttApiSettingsT.provider_id = some "openai" := by
  decide

/-- C2 (amended): `handleProviderSelect` performs no catalog-membership
check: any non-empty id, matched by a descriptor or not, is persisted and
on remote success committed as the snapshot's `provider_id` and the local
selection, so the membership invariant is preserved only for ids present
in the catalog. -/
theorem C2_theorem (st : ControllerState) (pid : String) (s : SttApiSettingsT)
    (hs : st.store = some s) (hp : pid ≠ "") :
    (handleProviderSelect st pid RemoteOutcome.ok).1.store.map
        SttApiSettingsT.provider_id = some pid ∧
    (handleProviderSelect st pid RemoteOutcome.ok).1.mirror.selectedProviderId
      = pid := by
  unfold handleProviderSelect
  rw [hs]
  simp [hp]
  cases hf : s.providers.find? (fun p => p.id == pid) <;> simp

/-- C2 witness: committing the absent id `"bogus"` from the default state. -/
theorem C2_witness :
    (handleProviderSelect st0 "bogus" RemoteOutcome.ok).1.store.map
        SttApiSettingsT.provider_id = some "bogus" ∧
    (handleProviderSelect st0 "bogus" RemoteOutcome.ok).1.mirror.selectedProviderId
      = "bogus" :=
  C2_theorem st0 "bogus" snap0 rfl (by decide)

/-- C3: for a (non-empty) provider id present in the catalog, a
succeeding `selectProvider` run sets the local selection to that id,
the mirror's base URL to the matched descriptor's base URL, the API key
to the `api_keys` entry or `""` when unset, and the model to the
`models` entry or `"whisper-1"` when unset, and commits the id. -/
theorem C3_theorem (st : ControllerState) (s : SttApiSettingsT) (pid : String)
    (p : SttApiProvider) (hs : st.store = some s)
    (hp : s.providers.find? (fun q => q.id == pid) = some p) (hne : pid ≠ "") :
    (handleProviderSelect st pid RemoteOutcome.ok).1.mirror.selectedProviderId = pid ∧
    (handleProviderSelect st pid RemoteOutcome.ok).1.mirror.baseUrl = p.base_url ∧
    (handleProviderSelect st pid RemoteOutcome.ok).1.mirror.apiKey
      = jsGet s.api_keys pid "" ∧
    (handleProviderSelect st pid RemoteOutcome.ok).1.mirror.model
      = jsGet s.models pid "whisper-1" ∧
    (handleProviderSelect st pid RemoteOutcome.ok).1.store.map
        SttApiSettingsT.provider_id = some pid := by
  unfold handleProviderSelect
  rw [hs]
  simp [hne, hp]

/-- C3 witness: selecting `"custom"` from the default state derives the
Custom descriptor's base URL and the documented fallbacks. -/
theorem C3_witness :
    (handleProviderSelect st0 "custom" RemoteOutcome.ok).1.mirror.selectedProviderId
      = "custom" ∧
    (handleProviderSelect st0 "custom" RemoteOutcome.ok).1.mirror.baseUrl
      = customP.base_url ∧
    (handleProviderSelect st0 "custom" RemoteOutcome.ok).1.mirror.apiKey
      = jsGet snap0.api_keys "custom" "" ∧
    (handleProviderSelect st0 "custom" RemoteOutcome.ok).1.mirror.model
      = jsGet snap0.models "custom" "whisper-1" ∧
    (handleProviderSelect st0 "custom" RemoteOutcome.ok).1.store.map
        SttApiSettingsT.provider_id = some "custom" :=
  C3_theorem st0 snap0 "custom" customP rfl (by decide) (by decide)

/-- C4: the claim that after a failed `selectProvider` the locally
readable selection equals the id that was passed is false.  The local
update happens only after the `await`, so on rejection the selection
remains the previous value: selecting `"custom"` from the default state
under a failing remote leaves `"openai"` selected. -/
theorem C4_counterexample :
    (handleProviderSelect st0 "custom" RemoteOutcome.err).1.mirror.selectedProviderId
      = "openai" ∧
    ("openai" : String) ≠ "custom" := by
  decide

/-- C4 (amended): when the remote `setProvider` call fails the failure is
only logged and the whole controller state, the local selection included,
is left unchanged at its previous value (there is no optimistic update to
roll back). -/
theorem C4_theorem (st : ControllerState) (pid : String) :
    (handleProviderSelect st pid RemoteOutcome.err).1 = st := by
  unfold handleProviderSelect
  rcases st with ⟨m, sto⟩
  cases sto with
  | none => rfl
  | some s => by_cases h : pid = "" <;> simp [h]

/-- C5: on a successful `setBaseUrl` run (guard passed, snapshot loaded)
the committed snapshot differs from the previous one only in the
`base_url` of the providers whose id equals the selected provider id:
`enabled`, `provider_id`, `api_keys`, `models` and every provider entry
with a different id are unchanged, and the list keeps its length. -/
theorem C5_theorem (st : ControllerState) (s : SttApiSettingsT) (v : String)
    (hs : st.store = some s) (hc : isCustomProvider st = true) :
    ∃ s', (handleBaseUrlChange st v RemoteOutcome.ok).1.store = some s' ∧
      s'.enabled = s.enabled ∧ s'.provider_id = s.provider_id ∧
      s'.api_keys = s.api_keys ∧ s'.models = s.models ∧
      s'.providers.length = s.providers.length ∧
      ∀ i (h1 : i < s.providers.length) (h2 : i < s'.providers.length),
        (if (s.providers.get ⟨i, h1⟩).id = st.mirror.selectedProviderId
         then s'.providers.get ⟨i, h2⟩
                = { s.providers.get ⟨i, h1⟩ with base_url := v }
         else s'.providers.get ⟨i, h2⟩ = s.providers.get ⟨i, h1⟩) := by
  have hid := selected_eq_custom st hc
  have hguard : (!isCustomProvider st || st.mirror.selectedProviderId == "") = false := by
    simp [hc, hid]
  refine ⟨{ s with providers := s.providers.map (fun p =>
      if p.id == st.mirror.selectedProviderId then { p with base_url := v }
      else p) }, ?_, rfl, rfl, rfl, rfl, by simp, ?_⟩
  · unfold handleBaseUrlChange handleBaseUrlChange_mid
    simp only [hguard, hs]
    simp
  · intro i h1 h2
    have hg : ∀ h2' , (s.providers.map (fun p =>
        if p.id == st.mirror.selectedProviderId then { p with base_url := v }
        else p)).get ⟨i, h2'⟩
        = (if (s.providers.get ⟨i, h1⟩).id == st.mirror.selectedProviderId
           then { s.providers.get ⟨i, h1⟩ with base_url := v }
           else s.providers.get ⟨i, h1⟩) := by
      intro h2'
      simp
    rw [hg]
    by_cases hcase : (s.providers.get ⟨i, h1⟩).id = st.mirror.selectedProviderId
    · rw [if_pos hcase]
      simp [hcase]
      exact fun hx => absurd hcase hx
    · rw [if_neg hcase]
      simp [hcase]
      exact fun hx => absurd hx hcase

/-- C5 witness: Scenario A's tail — from the custom-selected default
state, `setBaseUrl("http://localhost:9000/v1")` patches only the custom
entry of the provider list. -/
theorem C5_witness :
    ∃ s', (handleBaseUrlChange stC "http://localhost:9000/v1" RemoteOutcome.ok).1.store
        = some s' ∧
      s'.enabled = snapC.enabled ∧ s'.provider_id = snapC.provider_id ∧
      s'.api_keys = snapC.api_keys ∧ s'.models = snapC.models ∧
      s'.providers.length = snapC.providers.length ∧
      ∀ i (h1 : i < snapC.providers.length) (h2 : i < s'.providers.length),
        (if (snapC.providers.get ⟨i, h1⟩).id = stC.mirror.selectedProviderId
         then s'.providers.get ⟨i, h2⟩
                = { snapC.providers.get ⟨i, h1⟩ with
                      base_url := "http://localhost:9000/v1" }
         else s'.providers.get ⟨i, h2⟩ = snapC.providers.get ⟨i, h1⟩) :=
  C5_theorem stC snapC "http://localhost:9000/v1" rfl (by decide)

/-- C6: for each of the three field mutations, when its guard passes the
corresponding busy flag is true at the suspension point and false after
resolution, for both remote outcomes; and independently of the guard, a
run started with the flag clear ends with the flag clear. -/
theorem C6_theorem (st : ControllerState) (v : String) (o : RemoteOutcome) :
    (isCustomProvider st = true →
      (handleBaseUrlChange_mid st v).map (fun q => q.mirror.isBaseUrlUpdating)
        = some true ∧
      (handleBaseUrlChange st v o).1.mirror.isBaseUrlUpdating = false) ∧
    (st.mirror.selectedProviderId ≠ "" →
      ((handleApiKeyChange_mid st v).map (fun q => q.mirror.isApiKeyUpdating)
         = some true ∧
       (handleApiKeyChange st v o).1.mirror.isApiKeyUpdating = false) ∧
      ((handleModelChange_mid st v).map (fun q => q.mirror.isModelUpdating)
         = some true ∧
       (handleModelChange st v o).1.mirror.isModelUpdating = false)) ∧
    (st.mirror.isBaseUrlUpdating = false →
      (handleBaseUrlChange st v o).1.mirror.isBaseUrlUpdating = false) ∧
    (st.mirror.isApiKeyUpdating = false →
      (handleApiKeyChange st v o).1.mirror.isApiKeyUpdating = false) ∧
    (st.mirror.isModelUpdating = false →
      (handleModelChange st v o).1.mirror.isModelUpdating = false) := by
  refine ⟨?_, ?_, ?_, ?_, ?_⟩
  · intro h
    have hid := selected_eq_custom st h
    unfold handleBaseUrlChange handleBaseUrlChange_mid
    simp [h, hid]
    cases o <;> simp
  · intro h
    unfold handleApiKeyChange handleApiKeyChange_mid
      handleModelChange handleModelChange_mid
    simp [h]
    cases o <;> simp
  · intro h
    unfold handleBaseUrlChange handleBaseUrlChange_mid
    by_cases hg : !isCustomProvider st || st.mirror.selectedProviderId == ""
    · simp [hg, h]
    · simp [hg]
      cases o <;> simp
  · intro h
    unfold handleApiKeyChange handleApiKeyChange_mid
    by_cases hg : st.mirror.selectedProviderId == ""
    · simp [hg, h]
    · simp [hg]
      cases o <;> simp
  · intro h
    unfold handleModelChange handleModelChange_mid
    by_cases hg : st.mirror.selectedProviderId == ""
    · simp [hg, h]
    · simp [hg]
      cases o <;> simp

/-- C6 witness: the busy-flag pattern for all three mutations at the
custom-selected default state under a succeeding remote call. -/
theorem C6_witness :
    ((handleBaseUrlChange_mid stC "http://w.test/v1").map
        (fun q => q.mirror.isBaseUrlUpdating) = some true ∧
     (handleBaseUrlChange stC "http://w.test/v1" RemoteOutcome.ok).1.mirror.isBaseUrlUpdating
       = false) ∧
    (((handleApiKeyChange_mid stC "http://w.test/v1").map
         (fun q => q.mirror.isApiKeyUpdating) = some true ∧
      (handleApiKeyChange stC "http://w.test/v1" RemoteOutcome.ok).1.mirror.isApiKeyUpdating
        = false) ∧
     ((handleModelChange_mid stC "http://w.test/v1").map
         (fun q => q.mirror.isModelUpdating) = some true ∧
      (handleModelChange stC "http://w.test/v1" RemoteOutcome.ok).1.mirror.isModelUpdating
        = false)) :=
  ⟨(C6_theorem stC "http://w.test/v1" RemoteOutcome.ok).1 (by decide),
   (C6_theorem stC "http://w.test/v1" RemoteOutcome.ok).2.1 (by decide)⟩

/-- C7: when a provider is selected, the state observable immediately
after invoking `setApiKey(v)` — while the remote call is still in
flight — already has the optimistic `apiKey = v`. -/
theorem C7_theorem (st : ControllerState) (v : String)
    (h : st.mirror.selectedProviderId ≠ "") :
    (handleApiKeyChange_mid st v).map (fun q => q.mirror.apiKey) = some v := by
  unfold handleApiKeyChange_mid
  simp [h]

/-- C7 witness: the optimistic key is visible mid-flight at the
custom-selected default state. -/
theorem C7_witness :
    (handleApiKeyChange_mid stC "sk-test-123").map (fun q => q.mirror.apiKey)
      = some "sk-test-123" :=
  C7_theorem stC "sk-test-123" (by decide)

/-- After a `jsSet`, the key written is present. -/
theorem jsSet_any_key (l : List (String × String)) (k v : String) :
    (jsSet l k v).any (fun kv => kv.1 == k) = true := by
  unfold jsSet
  by_cases h : l.any (fun kv => kv.1 == k) = true
  · rw [if_pos h]
    rw [List.any_map]
    have hc : ((fun kv : String × String => kv.1 == k) ∘
        (fun kv => if kv.1 == k then (kv.1, v) else kv))
        = fun kv : String × String => kv.1 == k := by
      funext kv
      by_cases hak : kv.1 = k <;> simp [hak]
    rw [hc]
    exact h
  · rw [if_neg h]
    simp

/-- A `jsSet` whose binding is already present with the written value is
the identity. -/
theorem jsSet_eq_self (l : List (String × String)) (k v : String)
    (hmem : ∀ kv ∈ l, kv.1 = k → kv.2 = v)
    (hany : l.any (fun kv => kv.1 == k) = true) :
    jsSet l k v = l := by
  unfold jsSet
  rw [if_pos hany]
  have hpt : ∀ kv ∈ l, (if kv.1 == k then (kv.1, v) else kv) = kv := by
    rintro ⟨a, b⟩ hkv
    by_cases hk : (a == k) = true
    · have hak : a = k := by simpa using hk
      have h2 : b = v := hmem (a, b) hkv hak
      simp [hk, h2]
    · simp [hk]
  calc l.map (fun kv => if kv.1 == k then (kv.1, v) else kv)
      = l.map id := List.map_congr_left hpt
    _ = l := List.map_id l

/-- Writing the same binding twice is the same as writing it once. -/
theorem jsSet_idem (l : List (String × String)) (k v : String) :
    jsSet (jsSet l k v) k v = jsSet l k v := by
  apply jsSet_eq_self
  · intro kv hkv hk
    unfold jsSet at hkv
    by_cases h : l.any (fun kv => kv.1 == k) = true
    · rw [if_pos h] at hkv
      obtain ⟨kv0, hkv0, heq⟩ := List.mem_map.mp hkv
      by_cases hk0 : (kv0.1 == k) = true
      · rw [if_pos hk0] at heq
        rw [← heq]
      · rw [if_neg hk0] at heq
        have : kv0.1 = k := by rw [heq]; exact hk
        exact absurd (by simpa using this) hk0
    · rw [if_neg h] at hkv
      rcases List.mem_append.mp hkv with hin | hin
      · have hnone : ∀ x ∈ l, ¬((fun kv : String × String => kv.1 == k) x = true) := by
          intro x hx hpx
          exact h (List.any_eq_true.mpr ⟨x, hx, hpx⟩)
        exact absurd (by simpa using hk) (hnone kv hin)
      · have : kv = (k, v) := by simpa using hin
        rw [this]
  · exact jsSet_any_key l k v

/-- C8: the claim that two back-to-back `setModel(m)` runs always leave
mirror and snapshot identical after the second run is false when remote
outcomes are free.  From the default state, a failing first run followed
by a succeeding second run issues one remote call each, yet the state
after the second run differs from the state after the first (the second
run commits `models["openai"] = "gpt-x"` which the first did not). -/
theorem C8_counterexample :
    (handleModelChange st0 "gpt-x" RemoteOutcome.err).2.length = 1 ∧
    (handleModelChange (handleModelChange st0 "gpt-x" RemoteOutcome.err).1
        "gpt-x" RemoteOutcome.ok).2.length = 1 ∧
    (handleModelChange (handleModelChange st0 "gpt-x" RemoteOutcome.err).1
        "gpt-x" RemoteOutcome.ok).1
      ≠ (handleModelChange st0 "gpt-x" RemoteOutcome.err).1 := by
  decide

/-- C8 (amended): two successive `setModel(m)` runs with a provider
selected each issue exactly one `setModel` remote call, and whenever it
is not the case that the first remote call fails while the second
succeeds (in particular on the normal path where both succeed, and
always for the local mirror), the state after the second run equals the
state after the first: the second run is idempotent on the local state. -/
theorem C8_theorem (st : ControllerState) (m : String) (o1 o2 : RemoteOutcome)
    (hg : st.mirror.selectedProviderId ≠ "")
    (ho : o1 = RemoteOutcome.ok ∨ o2 = RemoteOutcome.err) :
    (handleModelChange st m o1).2
      = [RemoteCall.setModel st.mirror.selectedProviderId m] ∧
    (handleModelChange (handleModelChange st m o1).1 m o2).2
      = [RemoteCall.setModel st.mirror.selectedProviderId m] ∧
    (handleModelChange (handleModelChange st m o1).1 m o2).1
      = (handleModelChange st m o1).1 := by
  have hgb : (st.mirror.selectedProviderId == "") = false := by simpa using hg
  rcases st with ⟨mir, sto⟩
  rcases ho with ho | ho
  · rw [ho]
    cases o2 with
    | ok =>
      cases sto with
      | none => simp [handleModelChange, handleModelChange_mid, hgb]
      | some s => simp [handleModelChange, handleModelChange_mid, hgb, jsSet_idem]
    | err =>
      cases sto <;> simp [handleModelChange, handleModelChange_mid, hgb]
  · rw [ho]
    cases o1 with
    | ok =>
      cases sto with
      | none => simp [handleModelChange, handleModelChange_mid, hgb]
      | some s => simp [handleModelChange, handleModelChange_mid, hgb]
    | err =>
      cases sto <;> simp [handleModelChange, handleModelChange_mid, hgb]

/-- C8 witness: two succeeding `setModel("gpt-x")` runs from the
custom-selected default state. -/
theorem C8_witness :
    (handleModelChange stC "gpt-x" RemoteOutcome.ok).2
      = [RemoteCall.setModel stC.mirror.selectedProviderId "gpt-x"] ∧
    (handleModelChange (handleModelChange stC "gpt-x" RemoteOutcome.ok).1
        "gpt-x" RemoteOutcome.ok).2
      = [RemoteCall.setModel stC.mirror.selectedProviderId "gpt-x"] ∧
    (handleModelChange (handleModelChange stC "gpt-x" RemoteOutcome.ok).1
        "gpt-x" RemoteOutcome.ok).1
      = (handleModelChange stC "gpt-x" RemoteOutcome.ok).1 :=
  C8_theorem stC "gpt-x" RemoteOutcome.ok RemoteOutcome.ok (by decide) (Or.inl rfl)

/-- C9: when the remote call fails, each of the three field mutations
leaves the store snapshot exactly as it was — the `updateSetting` commit
sits on the success path only — while the local mirror keeps the
optimistic value just written. -/
theorem C9_theorem (st : ControllerState) (v : String) :
    ((handleBaseUrlChange st v RemoteOutcome.err).1.store = st.store ∧
     (handleApiKeyChange st v RemoteOutcome.err).1.store = st.store ∧
     (handleModelChange st v RemoteOutcome.err).1.store = st.store) ∧
    (isCustomProvider st = true →
      (handleBaseUrlChange st v RemoteOutcome.err).1.mirror.baseUrl = v) ∧
    (st.mirror.selectedProviderId ≠ "" →
      (handleApiKeyChange st v RemoteOutcome.err).1.mirror.apiKey = v ∧
      (handleModelChange st v RemoteOutcome.err).1.mirror.model = v) := by
  refine ⟨⟨?_, ?_, ?_⟩, ?_, ?_⟩
  · unfold handleBaseUrlChange handleBaseUrlChange_mid
    by_cases hgb : (!isCustomProvider st || st.mirror.selectedProviderId == "") = true <;>
      simp [hgb]
  · unfold handleApiKeyChange handleApiKeyChange_mid
    by_cases hgb : (st.mirror.selectedProviderId == "") = true <;> simp [hgb]
  · unfold handleModelChange handleModelChange_mid
    by_cases hgb : (st.mirror.selectedProviderId == "") = true <;> simp [hgb]
  · intro h
    have hid := selected_eq_custom st h
    unfold handleBaseUrlChange handleBaseUrlChange_mid
    simp [h, hid]
  · intro h
    unfold handleApiKeyChange handleApiKeyChange_mid
      handleModelChange handleModelChange_mid
    simp [h]

/-- C9 witness: a failing run of each mutation at the custom-selected
default state leaves the store untouched and the optimistic value in the
mirror. -/
theorem C9_witness :
    (handleBaseUrlChange stC "http://w.test/v1" RemoteOutcome.err).1.store
      = stC.store ∧
    (handleBaseUrlChange stC "http://w.test/v1" RemoteOutcome.err).1.mirror.baseUrl
      = "http://w.test/v1" ∧
    (handleApiKeyChange stC "http://w.test/v1" RemoteOutcome.err).1.mirror.apiKey
      = "http://w.test/v1" :=
  ⟨(C9_theorem stC "http://w.test/v1").1.1,
   (C9_theorem stC "http://w.test/v1").2.1 (by decide),
   ((C9_theorem stC "http://w.test/v1").2.2 (by decide)).1⟩

/-- C10: `handleToggleEnabled` has no loaded-snapshot guard.  With the
store holding no `stt_api` snapshot it still issues the `setEnabled`
remote call (on both outcomes), and on success the committed value is the
spread of `undefined`: a snapshot holding only the `enabled` flag, with
`provider_id`, `providers`, `api_keys` and `models` all absent. -/
theorem C10_theorem (v : Bool) :
    handleToggleEnabled none v RemoteOutcome.ok
      = (some { enabled := some v, provider_id := none, providers := none,
                api_keys := none, models := none },
         [RemoteCall.setEnabled v]) ∧
    handleToggleEnabled none v RemoteOutcome.err
      = (none, [RemoteCall.setEnabled v]) :=
  ⟨rfl, rfl⟩

end SttApi
